import Mathlib

/-
Verification of the custom-message handler of the cln-lightning-liquidity
plugin (src/src/main.rs, subscribe_to_custom_message).

The handler is embedded shallowly: the plugin state's two maps are passed in
as association lists, the collaborators that live in modules outside the
visible source (the serde JSON decoders for the two response schemas, the
ClnRpc connection constructor, and the validate-and-pay engine) are passed
in as a record of functions, and the handler returns the disposition value,
the (unchanged) maps, and a trace of observable events.
-/

namespace LSPS1

/-- A JSON leaf value, enough to model the handler's extraction of the
string-valued payload attribute from the incoming serde_json value. -/
inductive JLeaf where
  | str (s : String)
  | other
deriving DecidableEq

/-- A flat JSON object, as an association list of attributes. -/
abbrev JObj := List (String × JLeaf)

/-- Models v.get(key).and_then(as_str) on a serde_json value. -/
def jgetStr (v : JObj) (k : String) : Option String :=
  match v.lookup k with
  | some (JLeaf.str s) => some s
  | _ => none

/-- Value of one hexadecimal digit, as in the hex crate. -/
def hexVal (c : Char) : Option Nat :=
  if 48 ≤ c.toNat ∧ c.toNat ≤ 57 then some (c.toNat - 48)
  else if 97 ≤ c.toNat ∧ c.toNat ≤ 102 then some (c.toNat - 97 + 10)
  else if 65 ≤ c.toNat ∧ c.toNat ≤ 70 then some (c.toNat - 65 + 10)
  else none

/-- hex.decode: pairs of hex digits to bytes; fails on an odd length or a
non-hex character. -/
def hexDecode : List Char → Option (List Nat)
  | [] => some []
  | [_] => none
  | a :: b :: rest =>
    match hexVal a, hexVal b, hexDecode rest with
    | some hi, some lo, some tl => some ((hi * 16 + lo) :: tl)
    | _, _, _ => none

/-- Modelled from the spec: the registered LSPS1 transport message-type
constant MESSAGE_TYPE lives in the constants module, which is not in the
visible source; the spec's scenario registers tag 0x0001. -/
def MESSAGE_TYPE : Nat := 1

/-- Modelled from the spec: the create-order method name constant from the
constants module, taken from the spec's scenarios. -/
def LSPS1_CREATE_ORDER_METHOD : String := "lsps1.create_order"

/-- Modelled from the spec: the get-order method name constant from the
constants module, taken from the spec's scenarios. -/
def LSPS1_GET_ORDER_METHOD : String := "lsps1.get_order"

/-- Modelled from the spec: the shared wire shape of get-order and
create-order replies, OrderResponse with an id and opaque order/payment
fields; the handler itself only reads the id. -/
structure CreateOrderJsonRpcResponse where
  id : String
  result : String
deriving DecidableEq

/-- Modelled from the spec: GetInfoResponse with an id and opaque node
capability fields. -/
structure GetInfoJsonRpcResponse where
  id : String
  result : String
deriving DecidableEq

/-- Observable events of one handler invocation. -/
inductive Event where
  | decodeGetInfoTry (ok : Bool)
  | decodeOrderTry (ok : Bool)
  | logGetOrder (id : String)
  | pay (order : String) (id : String) (ok : Bool)
deriving DecidableEq

/-- Whether an event is an invocation of the payment operation. -/
def Event.isPay : Event → Bool
  | Event.pay _ _ _ => true
  | _ => false

/-- The handler's collaborators: the two serde schema decoders, the ClnRpc
connection constructor, and the validate-and-pay engine (all defined in
modules outside the visible source, hence abstract here). -/
structure Collab where
  decodeGetInfo : List Nat → Option GetInfoJsonRpcResponse
  decodeOrder : List Nat → Option CreateOrderJsonRpcResponse
  rpcConnect : Except String Unit
  validate_and_pay : String → CreateOrderJsonRpcResponse → Except String Unit

/-- Whether a fallible call succeeded. -/
def exceptIsOk : Except String Unit → Bool
  | Except.ok _ => true
  | Except.error _ => false

/-- Output of one handler invocation: the returned disposition value, the
two maps as the invocation leaves them, and the event trace. -/
structure HandlerOut where
  result : JObj
  data : List (String × String)
  method : List (String × String)
  trace : List Event
deriving DecidableEq

/-- The disposition value json of result continue returned on every
non-error path. -/
def continueDisposition : JObj := [("result", JLeaf.str "continue")]

/-- Shallow embedding of subscribe_to_custom_message from src/src/main.rs:
extract the payload attribute, hex-decode, length and type-tag checks,
construct the RPC client, then the three decode attempts (get-info
informational, get-order informational, create-order with registry lookup
and payment). -/
def subscribe_to_custom_message (c : Collab)
    (data method : List (String × String)) (v : JObj) :
    Except String HandlerOut :=
  match jgetStr v "payload" with
  | none =>
    Except.ok ⟨continueDisposition, data, method, []⟩
  | some payload_hex =>
    match hexDecode payload_hex.toList with
    | none => Except.ok ⟨continueDisposition, data, method, []⟩
    | some bytes =>
      if bytes.length < 2 then
        Except.ok ⟨continueDisposition, data, method, []⟩
      else
        let message_type := bytes.getD 0 0 * 256 + bytes.getD 1 0
        if message_type ≠ MESSAGE_TYPE then
          Except.ok ⟨continueDisposition, data, method, []⟩
        else
          match c.rpcConnect with
          | Except.error e => Except.error e
          | Except.ok _client =>
            let json_bytes := bytes.drop 2
            let t1 : List Event :=
              match c.decodeGetInfo json_bytes with
              | some _ => [Event.decodeGetInfoTry true]
              | none => [Event.decodeGetInfoTry false]
            let t2 : List Event :=
              match c.decodeOrder json_bytes with
              | some jp =>
                if method.lookup "method" = some LSPS1_GET_ORDER_METHOD then
                  t1 ++ [Event.decodeOrderTry true, Event.logGetOrder jp.id]
                else
                  t1 ++ [Event.decodeOrderTry true]
              | none => t1 ++ [Event.decodeOrderTry false]
            match c.decodeOrder json_bytes with
            | some json_payload =>
              if method.lookup "method" ≠ some LSPS1_CREATE_ORDER_METHOD then
                Except.ok ⟨continueDisposition, data, method,
                  t2 ++ [Event.decodeOrderTry true]⟩
              else
                match data.lookup json_payload.id with
                | some order =>
                  let res := c.validate_and_pay order json_payload
                  Except.ok ⟨continueDisposition, data, method,
                    t2 ++ [Event.decodeOrderTry true,
                      Event.pay order json_payload.id (exceptIsOk res)]⟩
                | none =>
                  Except.ok ⟨continueDisposition, data, method,
                    t2 ++ [Event.decodeOrderTry true]⟩
            | none =>
              Except.ok ⟨continueDisposition, data, method,
                t2 ++ [Event.decodeOrderTry false]⟩

/-- The same handler with the GetInfo decode step (lines 105-112 of
src/src/main.rs) removed, for the observational-equivalence claim. -/
def subscribe_without_getinfo (c : Collab)
    (data method : List (String × String)) (v : JObj) :
    Except String HandlerOut :=
  match jgetStr v "payload" with
  | none =>
    Except.ok ⟨continueDisposition, data, method, []⟩
  | some payload_hex =>
    match hexDecode payload_hex.toList with
    | none => Except.ok ⟨continueDisposition, data, method, []⟩
    | some bytes =>
      if bytes.length < 2 then
        Except.ok ⟨continueDisposition, data, method, []⟩
      else
        let message_type := bytes.getD 0 0 * 256 + bytes.getD 1 0
        if message_type ≠ MESSAGE_TYPE then
          Except.ok ⟨continueDisposition, data, method, []⟩
        else
          match c.rpcConnect with
          | Except.error e => Except.error e
          | Except.ok _client =>
            let json_bytes := bytes.drop 2
            let t2 : List Event :=
              match c.decodeOrder json_bytes with
              | some jp =>
                if method.lookup "method" = some LSPS1_GET_ORDER_METHOD then
                  [Event.decodeOrderTry true, Event.logGetOrder jp.id]
                else
                  [Event.decodeOrderTry true]
              | none => [Event.decodeOrderTry false]
            match c.decodeOrder json_bytes with
            | some json_payload =>
              if method.lookup "method" ≠ some LSPS1_CREATE_ORDER_METHOD then
                Except.ok ⟨continueDisposition, data, method,
                  t2 ++ [Event.decodeOrderTry true]⟩
              else
                match data.lookup json_payload.id with
                | some order =>
                  let res := c.validate_and_pay order json_payload
                  Except.ok ⟨continueDisposition, data, method,
                    t2 ++ [Event.decodeOrderTry true,
                      Event.pay order json_payload.id (exceptIsOk res)]⟩
                | none =>
                  Except.ok ⟨continueDisposition, data, method,
                    t2 ++ [Event.decodeOrderTry true]⟩
            | none =>
              Except.ok ⟨continueDisposition, data, method,
                t2 ++ [Event.decodeOrderTry false]⟩

/-- Observable behavior of a handler invocation: the disposition value, the
two maps, and the payment events of the trace (log and decode-probe events
are not observable behavior). -/
def obs (r : Except String HandlerOut) :
    Except String (JObj × List (String × String) × List (String × String) × List Event) :=
  r.map (fun o => (o.result, o.data, o.method, o.trace.filter Event.isPay))

/-- The trace contribution of the GetInfo decode probe. -/
def getInfoProbeTrace (c : Collab) (jb : List Nat) : List Event :=
  match c.decodeGetInfo jb with
  | some _ => [Event.decodeGetInfoTry true]
  | none => [Event.decodeGetInfoTry false]

/-- The GetInfo probe never contributes a payment event. -/
theorem countP_getInfoProbeTrace (c : Collab) (jb : List Nat) :
    (getInfoProbeTrace c jb).countP Event.isPay = 0 := by
  cases h : c.decodeGetInfo jb <;> simp [getInfoProbeTrace, h, Event.isPay]

/-- Complete run of the handler on the payment path: a present payload, a
well-formed hex string of at least two bytes carrying the registered type
tag, a working RPC connection, a body that decodes as an order response,
lastMethod equal to the create-order method, and an id found in the orders
map yield the continue disposition, untouched maps, and exactly one
validate-and-pay call in the trace. -/
theorem handler_pay_run (c : Collab) (data method : List (String × String)) (v : JObj)
    (hx : String) (bytes : List Nat) (jp : CreateOrderJsonRpcResponse) (order : String)
    (hp : jgetStr v "payload" = some hx)
    (hb : hexDecode hx.toList = some bytes)
    (hl : 2 ≤ bytes.length)
    (ht : bytes.getD 0 0 * 256 + bytes.getD 1 0 = MESSAGE_TYPE)
    (hc : c.rpcConnect = Except.ok ())
    (hd : c.decodeOrder (bytes.drop 2) = some jp)
    (hm : method.lookup "method" = some LSPS1_CREATE_ORDER_METHOD)
    (ho : data.lookup jp.id = some order) :
    subscribe_to_custom_message c data method v =
      Except.ok ⟨continueDisposition, data, method,
        getInfoProbeTrace c (bytes.drop 2) ++
          [Event.decodeOrderTry true, Event.decodeOrderTry true,
            Event.pay order jp.id (exceptIsOk (c.validate_and_pay order jp))]⟩ := by
  have hl2 : ¬ bytes.length < 2 := not_lt.mpr hl
  have hb2 : hexDecode hx.data = some bytes := hb
  have ht2 : bytes[0]?.getD 0 * 256 + bytes[1]?.getD 0 = MESSAGE_TYPE := by
    simpa [List.getD_eq_getElem?_getD] using ht
  unfold subscribe_to_custom_message
  simp [hp, hb2, hl2, ht2, hc, hd, hm, ho, getInfoProbeTrace,
    LSPS1_CREATE_ORDER_METHOD, LSPS1_GET_ORDER_METHOD]

/-- C1: for every incoming message that hex-decodes, carries the registered
type tag in its first two bytes, whose body decodes as a create-order
response, whose tracked lastMethod equals the create-order method name, and
whose id is present in the orders map with terms that validate against the
stored request, the handler invokes validate_and_pay exactly once. -/
theorem payment_invoked_once (c : Collab) (data method : List (String × String))
    (v : JObj) (hx : String) (bytes : List Nat)
    (jp : CreateOrderJsonRpcResponse) (order : String)
    (hp : jgetStr v "payload" = some hx)
    (hb : hexDecode hx.toList = some bytes)
    (hl : 2 ≤ bytes.length)
    (ht : bytes.getD 0 0 * 256 + bytes.getD 1 0 = MESSAGE_TYPE)
    (hc : c.rpcConnect = Except.ok ())
    (hd : c.decodeOrder (bytes.drop 2) = some jp)
    (hm : method.lookup "method" = some LSPS1_CREATE_ORDER_METHOD)
    (ho : data.lookup jp.id = some order)
    (hv : c.validate_and_pay order jp = Except.ok ()) :
    ∃ out : HandlerOut,
      subscribe_to_custom_message c data method v = Except.ok out ∧
        out.trace.countP Event.isPay = 1 ∧
        Event.pay order jp.id true ∈ out.trace := by
  refine ⟨_, handler_pay_run c data method v hx bytes jp order hp hb hl ht hc hd hm ho,
    ?_, ?_⟩
  · simp [List.countP_append, countP_getInfoProbeTrace, List.countP_cons, Event.isPay]
  · simp [hv, exceptIsOk]

/-- C2: for every decoded order response, if the tracked lastMethod is
anything other than the create-order method name (including the get-order
method name or absent), the handler performs no payment: it returns the
continue disposition with both maps unchanged and no payment event. -/
theorem non_create_method_no_payment (c : Collab) (data method : List (String × String))
    (v : JObj) (hx : String) (bytes : List Nat) (jp : CreateOrderJsonRpcResponse)
    (hp : jgetStr v "payload" = some hx)
    (hb : hexDecode hx.toList = some bytes)
    (hl : 2 ≤ bytes.length)
    (ht : bytes.getD 0 0 * 256 + bytes.getD 1 0 = MESSAGE_TYPE)
    (hc : c.rpcConnect = Except.ok ())
    (hd : c.decodeOrder (bytes.drop 2) = some jp)
    (hm : method.lookup "method" ≠ some LSPS1_CREATE_ORDER_METHOD) :
    ∃ out : HandlerOut,
      subscribe_to_custom_message c data method v = Except.ok out ∧
        out.result = continueDisposition ∧ out.data = data ∧ out.method = method ∧
        out.trace.countP Event.isPay = 0 := by
  have hl2 : ¬ bytes.length < 2 := not_lt.mpr hl
  have hb2 : hexDecode hx.data = some bytes := hb
  have ht2 : bytes[0]?.getD 0 * 256 + bytes[1]?.getD 0 = MESSAGE_TYPE := by
    simpa [List.getD_eq_getElem?_getD] using ht
  have hne : LSPS1_GET_ORDER_METHOD ≠ LSPS1_CREATE_ORDER_METHOD := by decide
  unfold subscribe_to_custom_message
  by_cases hm1 : method.lookup "method" = some LSPS1_GET_ORDER_METHOD <;>
    rcases hgi : c.decodeGetInfo (bytes.drop 2) with _ | gi <;>
      simp [hp, hb2, hl2, ht2, hc, hd, hm, hm1, hgi, hne, Event.isPay, List.countP_cons]

/-- C3: for every decoded create-order response whose id is absent from the
orders map, the handler invokes no payment, surfaces no error, and returns
the continue disposition with both maps unchanged (silent no-op). -/
theorem unknown_id_silent_noop (c : Collab) (data method : List (String × String))
    (v : JObj) (hx : String) (bytes : List Nat) (jp : CreateOrderJsonRpcResponse)
    (hp : jgetStr v "payload" = some hx)
    (hb : hexDecode hx.toList = some bytes)
    (hl : 2 ≤ bytes.length)
    (ht : bytes.getD 0 0 * 256 + bytes.getD 1 0 = MESSAGE_TYPE)
    (hc : c.rpcConnect = Except.ok ())
    (hd : c.decodeOrder (bytes.drop 2) = some jp)
    (hm : method.lookup "method" = some LSPS1_CREATE_ORDER_METHOD)
    (ho : data.lookup jp.id = none) :
    ∃ out : HandlerOut,
      subscribe_to_custom_message c data method v = Except.ok out ∧
        out.result = continueDisposition ∧ out.data = data ∧ out.method = method ∧
        out.trace.countP Event.isPay = 0 := by
  have hl2 : ¬ bytes.length < 2 := not_lt.mpr hl
  have hb2 : hexDecode hx.data = some bytes := hb
  have ht2 : bytes[0]?.getD 0 * 256 + bytes[1]?.getD 0 = MESSAGE_TYPE := by
    simpa [List.getD_eq_getElem?_getD] using ht
  have hne : LSPS1_CREATE_ORDER_METHOD ≠ LSPS1_GET_ORDER_METHOD := by decide
  unfold subscribe_to_custom_message
  rcases hgi : c.decodeGetInfo (bytes.drop 2) with _ | gi <;>
    simp [hp, hb2, hl2, ht2, hc, hd, hm, ho, hgi, hne, Event.isPay, List.countP_cons]

/-- C4: every invocation of the custom-message handler returns the
disposition result continue on every path, except that a failure to
construct the RPC connection propagates that error out of the invocation. -/
theorem always_continue_or_rpc_error (c : Collab)
    (data method : List (String × String)) (v : JObj) :
    (∃ out : HandlerOut, subscribe_to_custom_message c data method v = Except.ok out ∧
      out.result = continueDisposition) ∨
    (∃ e : String, c.rpcConnect = Except.error e ∧
      subscribe_to_custom_message c data method v = Except.error e) := by
  unfold subscribe_to_custom_message
  rcases hc : c.rpcConnect with e | u
  all_goals simp only [hc]
  all_goals repeat' split
  all_goals first
    | exact Or.inl ⟨_, rfl, rfl⟩
    | exact Or.inr ⟨e, rfl, rfl⟩

/-- C5: on every execution path of the handler, both shared maps are left
exactly as they were: whenever an invocation returns a disposition, the
orders map and the method map it hands back are the ones it was given. -/
theorem maps_never_mutated (c : Collab) (data method : List (String × String))
    (v : JObj) (out : HandlerOut)
    (h : subscribe_to_custom_message c data method v = Except.ok out) :
    out.data = data ∧ out.method = method := by
  unfold subscribe_to_custom_message at h
  rcases hc : c.rpcConnect with e | u <;> simp only [hc] at h
  all_goals repeat' split at h
  all_goals cases h
  all_goals exact ⟨rfl, rfl⟩

/-- C6: delivering the identical valid create-order response twice from the
same starting state yields two independent payment attempts: the first
invocation pays once and changes no state the second consults, and the
second invocation behaves identically, paying once more. -/
theorem duplicate_delivery_two_payments (c : Collab)
    (data method : List (String × String)) (v : JObj)
    (hx : String) (bytes : List Nat) (jp : CreateOrderJsonRpcResponse) (order : String)
    (hp : jgetStr v "payload" = some hx)
    (hb : hexDecode hx.toList = some bytes)
    (hl : 2 ≤ bytes.length)
    (ht : bytes.getD 0 0 * 256 + bytes.getD 1 0 = MESSAGE_TYPE)
    (hc : c.rpcConnect = Except.ok ())
    (hd : c.decodeOrder (bytes.drop 2) = some jp)
    (hm : method.lookup "method" = some LSPS1_CREATE_ORDER_METHOD)
    (ho : data.lookup jp.id = some order) :
    ∃ out : HandlerOut,
      subscribe_to_custom_message c data method v = Except.ok out ∧
        out.data = data ∧ out.method = method ∧
        out.trace.countP Event.isPay = 1 ∧
        subscribe_to_custom_message c out.data out.method v = Except.ok out ∧
        out.trace.countP Event.isPay + out.trace.countP Event.isPay = 2 := by
  refine ⟨_, handler_pay_run c data method v hx bytes jp order hp hb hl ht hc hd hm ho,
    rfl, rfl, ?_, ?_, ?_⟩
  · simp [List.countP_append, countP_getInfoProbeTrace, List.countP_cons, Event.isPay]
  · exact handler_pay_run c data method v hx bytes jp order hp hb hl ht hc hd hm ho
  · simp [List.countP_append, countP_getInfoProbeTrace, List.countP_cons, Event.isPay]

/-- C7: for every payload whose first two bytes read as a big-endian uint16
differ from the registered message-type constant, the handler returns the
continue disposition with an empty trace: no JSON decode is attempted and
no state is touched. -/
theorem type_mismatch_no_decode (c : Collab) (data method : List (String × String))
    (v : JObj) (hx : String) (bytes : List Nat)
    (hp : jgetStr v "payload" = some hx)
    (hb : hexDecode hx.toList = some bytes)
    (hl : 2 ≤ bytes.length)
    (ht : bytes.getD 0 0 * 256 + bytes.getD 1 0 ≠ MESSAGE_TYPE) :
    subscribe_to_custom_message c data method v =
      Except.ok ⟨continueDisposition, data, method, []⟩ := by
  have hl2 : ¬ bytes.length < 2 := not_lt.mpr hl
  have hb2 : hexDecode hx.data = some bytes := hb
  have ht2 : bytes[0]?.getD 0 * 256 + bytes[1]?.getD 0 ≠ MESSAGE_TYPE := by
    simpa [List.getD_eq_getElem?_getD] using ht
  unfold subscribe_to_custom_message
  simp [hp, hb2, hl2, ht2]

/-- C8: for every input whose payload attribute fails hex-decoding, or
whose hex-decoded byte string is shorter than two bytes, the handler
returns the continue disposition with an empty trace and untouched maps. -/
theorem transport_decode_error_passthrough (c : Collab)
    (data method : List (String × String)) (v : JObj) (hx : String)
    (hp : jgetStr v "payload" = some hx)
    (hb : hexDecode hx.toList = none ∨
      ∃ bytes, hexDecode hx.toList = some bytes ∧ bytes.length < 2) :
    subscribe_to_custom_message c data method v =
      Except.ok ⟨continueDisposition, data, method, []⟩ := by
  unfold subscribe_to_custom_message
  rcases hb with hb | ⟨bytes, hb, hlen⟩
  · have hb2 : hexDecode hx.data = none := hb
    simp [hp, hb2]
  · have hb2 : hexDecode hx.data = some bytes := hb
    simp [hp, hb2, hlen]

/-- C10: for every message whose type tag equals the registered constant,
a failure to construct the RPC connection aborts the invocation with that
error no matter what the body holds: the conclusion is independent of the
decoders, so even bodies that would only be logged, dropped, or silently
ignored propagate the connection error. -/
theorem rpc_connect_failure_aborts (c : Collab)
    (data method : List (String × String)) (v : JObj)
    (hx : String) (bytes : List Nat) (e : String)
    (hp : jgetStr v "payload" = some hx)
    (hb : hexDecode hx.toList = some bytes)
    (hl : 2 ≤ bytes.length)
    (ht : bytes.getD 0 0 * 256 + bytes.getD 1 0 = MESSAGE_TYPE)
    (hc : c.rpcConnect = Except.error e) :
    subscribe_to_custom_message c data method v = Except.error e := by
  have hl2 : ¬ bytes.length < 2 := not_lt.mpr hl
  have hb2 : hexDecode hx.data = some bytes := hb
  have ht2 : bytes[0]?.getD 0 * 256 + bytes[1]?.getD 0 = MESSAGE_TYPE := by
    simpa [List.getD_eq_getElem?_getD] using ht
  unfold subscribe_to_custom_message
  simp [hp, hb2, hl2, ht2, hc]

/-- C9: the GetInfo decode attempt has no effect on the handler's
observable behavior: the handler with the GetInfo decode step removed
returns the same disposition, the same map states, and the same payment
events on every input. -/
theorem getinfo_probe_unobservable (c : Collab)
    (data method : List (String × String)) (v : JObj) :
    obs (subscribe_to_custom_message c data method v) =
      obs (subscribe_without_getinfo c data method v) := by
  unfold subscribe_to_custom_message subscribe_without_getinfo
  cases hget : jgetStr v "payload" with
  | none => simp only [hget]
  | some hx =>
    simp only [hget]
    cases hhex : hexDecode hx.toList with
    | none => simp only [hhex]
    | some bytes =>
      simp only [hhex]
      by_cases hlen : bytes.length < 2
      · simp only [if_pos hlen]
      · simp only [if_neg hlen]
        try dsimp only
        by_cases htag : bytes.getD 0 0 * 256 + bytes.getD 1 0 ≠ MESSAGE_TYPE
        · simp only [if_pos htag]
        · simp only [if_neg htag]
          cases hc : c.rpcConnect with
          | error e => simp only [hc]
          | ok u =>
            simp only [hc]
            try dsimp only
            rcases hgi : c.decodeGetInfo (bytes.drop 2) with _ | gi <;>
              rcases hdo : c.decodeOrder (bytes.drop 2) with _ | jp <;>
                simp only [hgi, hdo] <;>
                by_cases hm1 : method.lookup "method" = some LSPS1_GET_ORDER_METHOD <;>
                by_cases hm2 : method.lookup "method" ≠ some LSPS1_CREATE_ORDER_METHOD <;>
                first
                  | rfl
                  | (simp_all [obs, Event.isPay, LSPS1_GET_ORDER_METHOD,
                      LSPS1_CREATE_ORDER_METHOD] <;> rfl)
                  | (rcases hdl : data.lookup jp.id with _ | order <;>
                      first
                        | rfl
                        | (simp_all [obs, Event.isPay, LSPS1_GET_ORDER_METHOD,
                            LSPS1_CREATE_ORDER_METHOD] <;> rfl))

/-- A concrete order response used to exercise the theorems. -/
def sampleOrderResponse : CreateOrderJsonRpcResponse := ⟨"abc", "order-result"⟩

/-- Concrete collaborators: get-info never decodes, the order decoder
recognizes the body byte 0x7b, the RPC connection succeeds, and
validate-and-pay succeeds. -/
def sampleCollab : Collab :=
  ⟨fun _ => none,
    fun bs => if bs = [123] then some sampleOrderResponse else none,
    Except.ok (),
    fun _ _ => Except.ok ()⟩

/-- The same collaborators with a failing RPC connection constructor. -/
def sampleFailRpcCollab : Collab :=
  ⟨fun _ => none,
    fun bs => if bs = [123] then some sampleOrderResponse else none,
    Except.error "connection refused",
    fun _ _ => Except.ok ()⟩

/-- A concrete orders map holding the terms for order id abc. -/
def sampleData : List (String × String) := [("abc", "orig-terms")]

/-- A concrete method map with lastMethod equal to create-order. -/
def sampleMethodCreate : List (String × String) := [("method", "lsps1.create_order")]

/-- A concrete method map with lastMethod equal to get-order. -/
def sampleMethodGet : List (String × String) := [("method", "lsps1.get_order")]

/-- A concrete incoming message: tag 0x0001 followed by body byte 0x7b. -/
def sampleMsg : JObj := [("payload", JLeaf.str "00017b")]

/-- A concrete incoming message with the unregistered tag 0x0002. -/
def sampleMsgWrongTag : JObj := [("payload", JLeaf.str "00027b")]

/-- A concrete incoming message whose payload is not valid hex. -/
def sampleMsgBadHex : JObj := [("payload", JLeaf.str "zz")]

/-- The handler output on sampleCollab, sampleData, sampleMethodCreate and
sampleMsg. -/
def sampleOut : HandlerOut :=
  ⟨continueDisposition, sampleData, sampleMethodCreate,
    [Event.decodeGetInfoTry false, Event.decodeOrderTry true, Event.decodeOrderTry true,
      Event.pay "orig-terms" "abc" true]⟩

/-- Witness for C1 at a concrete input. -/
theorem payment_invoked_once_witness :
    ∃ out : HandlerOut,
      subscribe_to_custom_message sampleCollab sampleData sampleMethodCreate sampleMsg =
        Except.ok out ∧
        out.trace.countP Event.isPay = 1 ∧
        Event.pay "orig-terms" sampleOrderResponse.id true ∈ out.trace :=
  payment_invoked_once sampleCollab sampleData sampleMethodCreate sampleMsg
    "00017b" [0, 1, 123] sampleOrderResponse "orig-terms"
    (by decide) (by decide) (by decide) (by decide) rfl (by decide) (by decide)
    (by decide) rfl

/-- Witness for C2 at a concrete input. -/
theorem non_create_method_no_payment_witness :
    ∃ out : HandlerOut,
      subscribe_to_custom_message sampleCollab sampleData sampleMethodGet sampleMsg =
        Except.ok out ∧
        out.result = continueDisposition ∧ out.data = sampleData ∧
        out.method = sampleMethodGet ∧ out.trace.countP Event.isPay = 0 :=
  non_create_method_no_payment sampleCollab sampleData sampleMethodGet sampleMsg
    "00017b" [0, 1, 123] sampleOrderResponse
    (by decide) (by decide) (by decide) (by decide) rfl (by decide) (by decide)

/-- Witness for C3 at a concrete input with an empty orders map. -/
theorem unknown_id_silent_noop_witness :
    ∃ out : HandlerOut,
      subscribe_to_custom_message sampleCollab [] sampleMethodCreate sampleMsg =
        Except.ok out ∧
        out.result = continueDisposition ∧ out.data = [] ∧
        out.method = sampleMethodCreate ∧ out.trace.countP Event.isPay = 0 :=
  unknown_id_silent_noop sampleCollab [] sampleMethodCreate sampleMsg
    "00017b" [0, 1, 123] sampleOrderResponse
    (by decide) (by decide) (by decide) (by decide) rfl (by decide) (by decide)
    (by decide)

/-- Witness for C5 at a concrete input. -/
theorem maps_never_mutated_witness :
    sampleOut.data = sampleData ∧ sampleOut.method = sampleMethodCreate :=
  maps_never_mutated sampleCollab sampleData sampleMethodCreate sampleMsg sampleOut rfl

/-- Witness for C6 at a concrete input. -/
theorem duplicate_delivery_two_payments_witness :
    ∃ out : HandlerOut,
      subscribe_to_custom_message sampleCollab sampleData sampleMethodCreate sampleMsg =
        Except.ok out ∧
        out.data = sampleData ∧ out.method = sampleMethodCreate ∧
        out.trace.countP Event.isPay = 1 ∧
        subscribe_to_custom_message sampleCollab out.data out.method sampleMsg =
          Except.ok out ∧
        out.trace.countP Event.isPay + out.trace.countP Event.isPay = 2 :=
  duplicate_delivery_two_payments sampleCollab sampleData sampleMethodCreate sampleMsg
    "00017b" [0, 1, 123] sampleOrderResponse "orig-terms"
    (by decide) (by decide) (by decide) (by decide) rfl (by decide) (by decide)
    (by decide)

/-- Witness for C7 at a concrete input with tag 0x0002. -/
theorem type_mismatch_no_decode_witness :
    subscribe_to_custom_message sampleCollab sampleData sampleMethodCreate
        sampleMsgWrongTag =
      Except.ok ⟨continueDisposition, sampleData, sampleMethodCreate, []⟩ :=
  type_mismatch_no_decode sampleCollab sampleData sampleMethodCreate sampleMsgWrongTag
    "00027b" [0, 2, 123]
    (by decide) (by decide) (by decide) (by decide)

/-- Witness for C8 at a concrete input with an undecodable payload. -/
theorem transport_decode_error_passthrough_witness :
    subscribe_to_custom_message sampleCollab sampleData sampleMethodCreate
        sampleMsgBadHex =
      Except.ok ⟨continueDisposition, sampleData, sampleMethodCreate, []⟩ :=
  transport_decode_error_passthrough sampleCollab sampleData sampleMethodCreate
    sampleMsgBadHex "zz" (by decide) (Or.inl (by decide))

/-- Witness for C10 at a concrete input with a failing RPC constructor. -/
theorem rpc_connect_failure_aborts_witness :
    subscribe_to_custom_message sampleFailRpcCollab sampleData sampleMethodCreate
        sampleMsg = Except.error "connection refused" :=
  rpc_connect_failure_aborts sampleFailRpcCollab sampleData sampleMethodCreate
    sampleMsg "00017b" [0, 1, 123] "connection refused"
    (by decide) (by decide) (by decide) (by decide) rfl

end LSPS1
